import Mathlib

/-!
# go-tool: statement building and driver calls of `Database` / `DatabaseTx`

A shallow embedding of `src/database.go` (package `tool`) and `src/mysql/mysql.go`
(package `mysql`).

Modelling conventions.

* A Go `map[string]T` is a list of entries with pairwise distinct keys.  What
  `for k, v := range m` yields is one permutation of those entries; every function
  below that ranges over a map takes that sequence of yielded entries as its argument.
* `interface{}` values are never inspected by the code, so the value type is a
  parameter `V`.
* `database/sql` is outside the repository.  A handle (`*sql.DB`, `*sql.Tx`) carries
  the driver's answer to each call and a log of the calls it has received; every call
  appends to the log.  `Exec`/`Query`/`Begin` answer either a result or an error.
* `panic(err)` ends the call with `Outcome.panicked err`.
* `fmt.Sprintf` with `%s` verbs of string arguments is string concatenation;
  `strings.Join` is `stringsJoin`.  Go strings are Lean strings, and an `int64` that the
  code only passes on is an `Int`.
-/

namespace GoTool

/-! ## Go runtime and standard library -/

/-- A Go `error` value (non-nil); `Option GoError` is a possibly nil `error`. -/
abbrev GoError := String

/-- How a Go call ends: it returns its results, or it panics with a value. -/
inductive Outcome (α : Type) where
  | returned (a : α)
  | panicked (e : GoError)
  deriving Repr, DecidableEq

/-- Go `strings.Join(elems, sep)`. -/
def stringsJoin : List String → String → String
  | [], _ => ""
  | [a], _ => a
  | a :: b :: rest, sep => a ++ sep ++ stringsJoin (b :: rest) sep

/-- Go `m[k] = v` on a map held as an entry list: overwrite the entry of `k`, or add one. -/
def mapSet {β : Type} : List (String × β) → String → β → List (String × β)
  | [], k, v => [(k, v)]
  | (k0, v0) :: rest, k, v =>
    if k0 = k then (k0, v) :: rest else (k0, v0) :: mapSet rest k v

/-- Go `m[k]` with the presence flag: the value stored under `k`, if any. -/
def mapGet {β : Type} : List (String × β) → String → Option β
  | [], _ => none
  | (k0, v0) :: rest, k => if k0 = k then some v0 else mapGet rest k

/-- The keys of a map held as an entry list. -/
def mapKeys {β : Type} (m : List (String × β)) : List String := m.map Prod.fst

/-- Number of `?` placeholder characters in a text. -/
def placeholders (s : String) : Nat := s.data.count '?'

/-! ## database/sql -/

/-- A `sql.Result`: what `LastInsertId()` and `RowsAffected()` answer, each `(int64, error)`. -/
structure SqlResult where
  lastInsertId : Int × Option GoError
  rowsAffected : Int × Option GoError
  deriving Repr, DecidableEq

/-- A call received by a driver handle. -/
inductive Call (V : Type) where
  | exec (query : String) (args : List V)
  | query (query : String) (args : List V)
  | begin
  deriving Repr, DecidableEq

/-- A `*sql.Rows` cursor, as the rows it will yield. -/
abbrev SqlRows (V : Type) := List (List V)

/-- A `*sql.Tx`. -/
structure SqlTx (V : Type) where
  execFn : String → List V → Except GoError SqlResult
  queryFn : String → List V → Except GoError (SqlRows V)
  log : List (Call V)

/-- A `*sql.DB`. -/
structure SqlDB (V : Type) where
  execFn : String → List V → Except GoError SqlResult
  queryFn : String → List V → Except GoError (SqlRows V)
  beginFn : Except GoError (SqlTx V)
  log : List (Call V)

/-- `tx.Exec(query, args...)`. -/
def SqlTx.Exec {V : Type} (tx : SqlTx V) (query : String) (args : List V) :
    SqlTx V × Except GoError SqlResult :=
  ({ tx with log := tx.log ++ [Call.exec query args] }, tx.execFn query args)

/-- `tx.Query(query, args...)`. -/
def SqlTx.Query {V : Type} (tx : SqlTx V) (query : String) (args : List V) :
    SqlTx V × Except GoError (SqlRows V) :=
  ({ tx with log := tx.log ++ [Call.query query args] }, tx.queryFn query args)

/-- `db.Exec(query, args...)`. -/
def SqlDB.Exec {V : Type} (db : SqlDB V) (query : String) (args : List V) :
    SqlDB V × Except GoError SqlResult :=
  ({ db with log := db.log ++ [Call.exec query args] }, db.execFn query args)

/-- `db.Query(query, args...)`. -/
def SqlDB.Query {V : Type} (db : SqlDB V) (query : String) (args : List V) :
    SqlDB V × Except GoError (SqlRows V) :=
  ({ db with log := db.log ++ [Call.query query args] }, db.queryFn query args)

/-- `db.Begin()`. -/
def SqlDB.Begin {V : Type} (db : SqlDB V) : SqlDB V × Except GoError (SqlTx V) :=
  ({ db with log := db.log ++ [Call.begin] }, db.beginFn)

/-- The fields of `mysql.Config` (go-sql-driver) that `Connect` sets. -/
structure Config where
  Addr : String
  User : String
  Passwd : String
  DBName : String
  Params : List (String × String)
  deriving Repr, DecidableEq

/-! ## package tool: `src/database.go` -/

/-- The `DatabaseTx` struct. -/
structure DatabaseTx (V : Type) where
  tx : SqlTx V

/-- The `Database` struct. -/
structure Database (V : Type) where
  db : SqlDB V

/-- The `params` map built by `Database.Connect`: the five defaults, then every entry of
`customParams` in the order `range` yields them. -/
def Database.Connect.params (charset : String) (customParams : List (String × String)) :
    List (String × String) :=
  let params : List (String × String) := []
  let params := mapSet params "charset" charset
  let params := mapSet params "parseTime" "true"
  let params := mapSet params "readTimeout" "30m"
  let params := mapSet params "writeTimeout" "1m"
  let params := mapSet params "allowNativePasswords" "true"
  customParams.foldl (fun params entry => mapSet params entry.1 entry.2) params

/-- The `config` that `Database.Connect` formats into the data source name. -/
def Database.Connect.config (host username password dbname charset : String)
    (customParams : List (String × String)) : Config :=
  { Addr := host, User := username, Passwd := password, DBName := dbname,
    Params := Database.Connect.params charset customParams }

/-- `Database.Connect`.  `sqlOpen` is `sql.Open` and `FormatDSN` is `(*mysql.Config).FormatDSN`,
both of libraries outside the repository.  The receiver has the single field `db`, which the
call assigns, so the receiver after the call is returned rather than taken. -/
def Database.Connect {V : Type} (sqlOpen : String → String → Except GoError (SqlDB V))
    (FormatDSN : Config → String) (host username password dbname charset : String)
    (customParams : List (String × String)) : Outcome (Database V × Option GoError) :=
  let config := Database.Connect.config host username password dbname charset customParams
  match sqlOpen "mysql" (FormatDSN config) with
  | Except.error err => Outcome.panicked err
  | Except.ok db => Outcome.returned ({ db := db }, none)

/-- The `range data` loop of `Database.internalInsert`: the `fields` and `values` slices. -/
def Database.internalInsert.loop {V : Type} (data : List (String × V)) : List String × List V :=
  data.foldl (fun (acc : List String × List V) (entry : String × V) =>
    let subField := "`" ++ entry.1 ++ "` = ?"
    (acc.1 ++ [subField], acc.2 ++ [entry.2])) ([], [])

/-- `Database.internalInsert` (lines 60-78). -/
def Database.internalInsert {V : Type} (database : Database V) (data : List (String × V))
    (tblName insertType : String) : Database V × Outcome (Int × Option GoError) :=
  let fields := (Database.internalInsert.loop data).1
  let values := (Database.internalInsert.loop data).2
  let setStr := stringsJoin fields ", "
  let insertSql := insertType ++ " INTO " ++ tblName ++ " SET " ++ setStr
  match database.db.Exec insertSql values with
  | (db, Except.error err) => ({ database with db := db }, Outcome.panicked err)
  | (db, Except.ok result) =>
    ({ database with db := db }, Outcome.returned (result.lastInsertId.1, none))

/-- `Database.Insert`. -/
def Database.Insert {V : Type} (database : Database V) (data : List (String × V))
    (tblName : String) :
    Database V × Outcome (Int × Option GoError) :=
  database.internalInsert data tblName "INSERT"

/-- `Database.Ignore`. -/
def Database.Ignore {V : Type} (database : Database V) (data : List (String × V))
    (tblName : String) :
    Database V × Outcome (Int × Option GoError) :=
  database.internalInsert data tblName "INSERT IGNORE"

/-- `Database.Replace`. -/
def Database.Replace {V : Type} (database : Database V) (data : List (String × V))
    (tblName : String) :
    Database V × Outcome (Int × Option GoError) :=
  database.internalInsert data tblName "REPLACE"

/-- The `range data` loop of `Database.Update`: the `fields` and `values` slices. -/
def Database.Update.loop {V : Type} (data : List (String × V)) : List String × List V :=
  data.foldl (fun (acc : List String × List V) (entry : String × V) =>
    let subField := "`" ++ entry.1 ++ "` = ?"
    (acc.1 ++ [subField], acc.2 ++ [entry.2])) ([], [])

/-- `Database.Update`. -/
def Database.Update {V : Type} (database : Database V) (data : List (String × V))
    (tblName whereStr : String) (whereArgs : List V) :
    Database V × Outcome (Int × Option GoError) :=
  let fields := (Database.Update.loop data).1
  let values := (Database.Update.loop data).2
  let setStr := stringsJoin fields ", "
  let updateSql := "UPDATE " ++ tblName ++ " SET " ++ setStr ++ " WHERE " ++ whereStr
  let values := if whereArgs.length > 0 then values ++ whereArgs else values
  match database.db.Exec updateSql values with
  | (db, Except.error err) => ({ database with db := db }, Outcome.panicked err)
  | (db, Except.ok result) =>
    ({ database with db := db }, Outcome.returned (result.rowsAffected.1, none))

/-- `Database.Delete`. -/
def Database.Delete {V : Type} (database : Database V) (tblName whereStr : String)
    (whereArgs : List V) : Database V × Outcome (Int × Option GoError) :=
  let deleteSql := "DELETE FROM " ++ tblName ++ " WHERE " ++ whereStr
  match database.db.Exec deleteSql whereArgs with
  | (db, Except.error err) => ({ database with db := db }, Outcome.panicked err)
  | (db, Except.ok result) =>
    ({ database with db := db }, Outcome.returned (result.rowsAffected.1, none))

/-- `Database.Query`. -/
def Database.Query {V : Type} (database : Database V) (sql : String) (args : List V) :
    Database V × Outcome (SqlRows V × Option GoError) :=
  match database.db.Query sql args with
  | (db, Except.error err) => ({ database with db := db }, Outcome.panicked err)
  | (db, Except.ok rows) => ({ database with db := db }, Outcome.returned (rows, none))

/-- `Database.Begin`. -/
def Database.Begin {V : Type} (database : Database V) :
    Database V × Outcome (DatabaseTx V × Option GoError) :=
  match database.db.Begin with
  | (db, Except.error err) => ({ database with db := db }, Outcome.panicked err)
  | (db, Except.ok tx) => ({ database with db := db }, Outcome.returned ({ tx := tx }, none))

/-- The `range data` loop of `DatabaseTx.internalInsert`: the `fields` and `values` slices. -/
def DatabaseTx.internalInsert.loop {V : Type} (data : List (String × V)) : List String × List V :=
  data.foldl (fun (acc : List String × List V) (entry : String × V) =>
    let subField := "`" ++ entry.1 ++ "` = ?"
    (acc.1 ++ [subField], acc.2 ++ [entry.2])) ([], [])

/-- `DatabaseTx.internalInsert` (lines 194-212). -/
def DatabaseTx.internalInsert {V : Type} (databaseTx : DatabaseTx V) (data : List (String × V))
    (tblName insertType : String) : DatabaseTx V × Outcome (Int × Option GoError) :=
  let fields := (DatabaseTx.internalInsert.loop data).1
  let values := (DatabaseTx.internalInsert.loop data).2
  let setStr := stringsJoin fields ", "
  let insertSql := insertType ++ " INTO " ++ tblName ++ " SET " ++ setStr
  match databaseTx.tx.Exec insertSql values with
  | (tx, Except.error err) => ({ databaseTx with tx := tx }, Outcome.panicked err)
  | (tx, Except.ok result) =>
    ({ databaseTx with tx := tx }, Outcome.returned (result.lastInsertId.1, none))

/-- `DatabaseTx.Insert`. -/
def DatabaseTx.Insert {V : Type} (databaseTx : DatabaseTx V) (data : List (String × V))
    (tblName : String) :
    DatabaseTx V × Outcome (Int × Option GoError) :=
  databaseTx.internalInsert data tblName "INSERT"

/-- `DatabaseTx.Ignore`. -/
def DatabaseTx.Ignore {V : Type} (databaseTx : DatabaseTx V) (data : List (String × V))
    (tblName : String) :
    DatabaseTx V × Outcome (Int × Option GoError) :=
  databaseTx.internalInsert data tblName "INSERT IGNORE"

/-- `DatabaseTx.Replace`. -/
def DatabaseTx.Replace {V : Type} (databaseTx : DatabaseTx V) (data : List (String × V))
    (tblName : String) :
    DatabaseTx V × Outcome (Int × Option GoError) :=
  databaseTx.internalInsert data tblName "REPLACE"

/-- The `range data` loop of `DatabaseTx.Update`: the `fields` and `values` slices. -/
def DatabaseTx.Update.loop {V : Type} (data : List (String × V)) : List String × List V :=
  data.foldl (fun (acc : List String × List V) (entry : String × V) =>
    let subField := "`" ++ entry.1 ++ "` = ?"
    (acc.1 ++ [subField], acc.2 ++ [entry.2])) ([], [])

/-- `DatabaseTx.Update`. -/
def DatabaseTx.Update {V : Type} (databaseTx : DatabaseTx V) (data : List (String × V))
    (tblName whereStr : String) (whereArgs : List V) :
    DatabaseTx V × Outcome (Int × Option GoError) :=
  let fields := (DatabaseTx.Update.loop data).1
  let values := (DatabaseTx.Update.loop data).2
  let setStr := stringsJoin fields ", "
  let updateSql := "UPDATE " ++ tblName ++ " SET " ++ setStr ++ " WHERE " ++ whereStr
  let values := if whereArgs.length > 0 then values ++ whereArgs else values
  match databaseTx.tx.Exec updateSql values with
  | (tx, Except.error err) => ({ databaseTx with tx := tx }, Outcome.panicked err)
  | (tx, Except.ok result) =>
    ({ databaseTx with tx := tx }, Outcome.returned (result.rowsAffected.1, none))

/-- `DatabaseTx.Delete`. -/
def DatabaseTx.Delete {V : Type} (databaseTx : DatabaseTx V) (tblName whereStr : String)
    (whereArgs : List V) : DatabaseTx V × Outcome (Int × Option GoError) :=
  let deleteSql := "DELETE FROM " ++ tblName ++ " WHERE " ++ whereStr
  match databaseTx.tx.Exec deleteSql whereArgs with
  | (tx, Except.error err) => ({ databaseTx with tx := tx }, Outcome.panicked err)
  | (tx, Except.ok result) =>
    ({ databaseTx with tx := tx }, Outcome.returned (result.rowsAffected.1, none))

/-- `DatabaseTx.Query`. -/
def DatabaseTx.Query {V : Type} (databaseTx : DatabaseTx V) (sql : String) (args : List V) :
    DatabaseTx V × Outcome (SqlRows V × Option GoError) :=
  match databaseTx.tx.Query sql args with
  | (tx, Except.error err) => ({ databaseTx with tx := tx }, Outcome.panicked err)
  | (tx, Except.ok rows) => ({ databaseTx with tx := tx }, Outcome.returned (rows, none))

/-! ## package mysql: `src/mysql/mysql.go` -/

/-- The `params` map built by `mysql.Connect`: the five defaults, then every entry of
`customParams` in the order `range` yields them. -/
def mysql.Connect.params (charset : String) (customParams : List (String × String)) :
    List (String × String) :=
  let params : List (String × String) := []
  let params := mapSet params "charset" charset
  let params := mapSet params "parseTime" "true"
  let params := mapSet params "readTimeout" "30m"
  let params := mapSet params "writeTimeout" "1m"
  let params := mapSet params "allowNativePasswords" "true"
  customParams.foldl (fun params entry => mapSet params entry.1 entry.2) params

/-- The `config` that `mysql.Connect` formats into the data source name. -/
def mysql.Connect.config (host username password dbname charset : String)
    (customParams : List (String × String)) : Config :=
  { Addr := host, User := username, Passwd := password, DBName := dbname,
    Params := mysql.Connect.params charset customParams }

/-- `mysql.Connect`: the answer of `sql.Open` is returned as it is. -/
def mysql.Connect {V : Type} (sqlOpen : String → String → Except GoError (SqlDB V))
    (FormatDSN : Config → String) (host username password dbname charset : String)
    (customParams : List (String × String)) : Except GoError (SqlDB V) :=
  let config := mysql.Connect.config host username password dbname charset customParams
  sqlOpen "mysql" (FormatDSN config)

/-- The `range data` loop of `mysql.internalInsert`: the `fields` and `values` slices. -/
def mysql.internalInsert.loop {V : Type} (data : List (String × V)) : List String × List V :=
  data.foldl (fun (acc : List String × List V) (entry : String × V) =>
    let subField := "`" ++ entry.1 ++ "` = ?"
    (acc.1 ++ [subField], acc.2 ++ [entry.2])) ([], [])

/-- `mysql.internalInsert`: the driver's `(result, err)` is returned as it is. -/
def mysql.internalInsert {V : Type} (db : SqlDB V) (data : List (String × V))
    (tblName insertType : String) : SqlDB V × Except GoError SqlResult :=
  let fields := (mysql.internalInsert.loop data).1
  let values := (mysql.internalInsert.loop data).2
  let setStr := stringsJoin fields ", "
  let insertSql := insertType ++ " INTO " ++ tblName ++ " SET " ++ setStr
  db.Exec insertSql values

/-- `mysql.Insert`. -/
def mysql.Insert {V : Type} (db : SqlDB V) (data : List (String × V)) (tblName : String) :
    SqlDB V × Except GoError SqlResult :=
  mysql.internalInsert db data tblName "INSERT"

/-- `mysql.Ignore`. -/
def mysql.Ignore {V : Type} (db : SqlDB V) (data : List (String × V)) (tblName : String) :
    SqlDB V × Except GoError SqlResult :=
  mysql.internalInsert db data tblName "INSERT IGNORE"

/-- `mysql.Replace`. -/
def mysql.Replace {V : Type} (db : SqlDB V) (data : List (String × V)) (tblName : String) :
    SqlDB V × Except GoError SqlResult :=
  mysql.internalInsert db data tblName "REPLACE"

/-- The `range data` loop of `mysql.Update`: the `fields` and `values` slices. -/
def mysql.Update.loop {V : Type} (data : List (String × V)) : List String × List V :=
  data.foldl (fun (acc : List String × List V) (entry : String × V) =>
    let subField := "`" ++ entry.1 ++ "` = ?"
    (acc.1 ++ [subField], acc.2 ++ [entry.2])) ([], [])

/-- `mysql.Update`. -/
def mysql.Update {V : Type} (db : SqlDB V) (data : List (String × V))
    (tblName whereStr : String) (whereArgs : List V) : SqlDB V × Except GoError SqlResult :=
  let fields := (mysql.Update.loop data).1
  let values := (mysql.Update.loop data).2
  let setStr := stringsJoin fields ", "
  let updateSql := "UPDATE " ++ tblName ++ " SET " ++ setStr ++ " WHERE " ++ whereStr
  let values := if whereArgs.length > 0 then values ++ whereArgs else values
  db.Exec updateSql values

/-- `mysql.Delete`. -/
def mysql.Delete {V : Type} (db : SqlDB V) (tblName whereStr : String) (whereArgs : List V) :
    SqlDB V × Except GoError SqlResult :=
  let deleteSql := "DELETE FROM " ++ tblName ++ " WHERE " ++ whereStr
  db.Exec deleteSql whereArgs

/-- The `range data` loop of `mysql.txInternalInsert`: the `fields` and `values` slices. -/
def mysql.txInternalInsert.loop {V : Type} (data : List (String × V)) : List String × List V :=
  data.foldl (fun (acc : List String × List V) (entry : String × V) =>
    let subField := "`" ++ entry.1 ++ "` = ?"
    (acc.1 ++ [subField], acc.2 ++ [entry.2])) ([], [])

/-- `mysql.txInternalInsert`: the driver's `(result, err)` is returned as it is. -/
def mysql.txInternalInsert {V : Type} (tx : SqlTx V) (data : List (String × V))
    (tblName insertType : String) : SqlTx V × Except GoError SqlResult :=
  let fields := (mysql.txInternalInsert.loop data).1
  let values := (mysql.txInternalInsert.loop data).2
  let setStr := stringsJoin fields ", "
  let insertSql := insertType ++ " INTO " ++ tblName ++ " SET " ++ setStr
  tx.Exec insertSql values

/-- `mysql.TxInsert`. -/
def mysql.TxInsert {V : Type} (tx : SqlTx V) (data : List (String × V)) (tblName : String) :
    SqlTx V × Except GoError SqlResult :=
  mysql.txInternalInsert tx data tblName "INSERT"

/-- `mysql.TxIgnore`. -/
def mysql.TxIgnore {V : Type} (tx : SqlTx V) (data : List (String × V)) (tblName : String) :
    SqlTx V × Except GoError SqlResult :=
  mysql.txInternalInsert tx data tblName "INSERT IGNORE"

/-- `mysql.TxReplace`. -/
def mysql.TxReplace {V : Type} (tx : SqlTx V) (data : List (String × V)) (tblName : String) :
    SqlTx V × Except GoError SqlResult :=
  mysql.txInternalInsert tx data tblName "REPLACE"

/-- The `range data` loop of `mysql.TxUpdate`: the `fields` and `values` slices. -/
def mysql.TxUpdate.loop {V : Type} (data : List (String × V)) : List String × List V :=
  data.foldl (fun (acc : List String × List V) (entry : String × V) =>
    let subField := "`" ++ entry.1 ++ "` = ?"
    (acc.1 ++ [subField], acc.2 ++ [entry.2])) ([], [])

/-- `mysql.TxUpdate`. -/
def mysql.TxUpdate {V : Type} (tx : SqlTx V) (data : List (String × V))
    (tblName whereStr : String) (whereArgs : List V) : SqlTx V × Except GoError SqlResult :=
  let fields := (mysql.TxUpdate.loop data).1
  let values := (mysql.TxUpdate.loop data).2
  let setStr := stringsJoin fields ", "
  let updateSql := "UPDATE " ++ tblName ++ " SET " ++ setStr ++ " WHERE " ++ whereStr
  let values := if whereArgs.length > 0 then values ++ whereArgs else values
  tx.Exec updateSql values

/-- `mysql.TxDelete`. -/
def mysql.TxDelete {V : Type} (tx : SqlTx V) (tblName whereStr : String) (whereArgs : List V) :
    SqlTx V × Except GoError SqlResult :=
  let deleteSql := "DELETE FROM " ++ tblName ++ " WHERE " ++ whereStr
  tx.Exec deleteSql whereArgs

/-! ## Sample inputs -/

/-- A driver result whose `LastInsertId()` and `RowsAffected()` both fail. -/
def sampleResult : SqlResult :=
  { lastInsertId := (7, some "no identifier"), rowsAffected := (3, some "no count") }

/-- A transaction whose driver answers every call. -/
def sampleTx : DatabaseTx Int :=
  { tx := { execFn := fun _ _ => Except.ok sampleResult,
            queryFn := fun _ _ => Except.ok [[1]],
            log := [] } }

/-- A connection whose driver answers every call. -/
def sampleDatabase : Database Int :=
  { db := { execFn := fun _ _ => Except.ok sampleResult,
            queryFn := fun _ _ => Except.ok [[1]],
            beginFn := Except.ok sampleTx.tx,
            log := [] } }

/-- A connection whose driver fails every call. -/
def failingDatabase : Database Int :=
  { db := { execFn := fun _ _ => Except.error "exec failed",
            queryFn := fun _ _ => Except.error "query failed",
            beginFn := Except.error "begin failed",
            log := [] } }

/-- A transaction whose driver fails every call. -/
def failingTx : DatabaseTx Int :=
  { tx := { execFn := fun _ _ => Except.error "exec failed",
            queryFn := fun _ _ => Except.error "query failed",
            log := [] } }

/-- A field-value mapping with two entries. -/
def sampleFields : List (String × Int) := [("name", 1), ("age", 30)]

/-- An order in which `range` may yield the entries of `sampleFields`. -/
def sampleOrder : List (String × Int) := [("age", 30), ("name", 1)]

/-- A `customParams` map: one key collides with a default, one is new. -/
def sampleParams : List (String × String) := [("readTimeout", "5s"), ("loc", "UTC")]

/-- An order in which `range` may yield the entries of `sampleParams`. -/
def sampleParamsOrder : List (String × String) := [("loc", "UTC"), ("readTimeout", "5s")]

/-! ## Lemmas on the `range` loops -/

/-- The loop body appends one term and one value per yielded entry. -/
theorem rangeLoop_eq {V : Type} (data : List (String × V)) (fs : List String) (vs : List V) :
    data.foldl (fun (acc : List String × List V) (entry : String × V) =>
      (acc.1 ++ ["`" ++ entry.1 ++ "` = ?"], acc.2 ++ [entry.2])) (fs, vs)
    = (fs ++ data.map (fun entry => "`" ++ entry.1 ++ "` = ?"), vs ++ data.map Prod.snd) := by
  induction data generalizing fs vs with
  | nil => simp
  | cons e rest ih => simp [List.foldl_cons, ih]

/-- The guarded `append(values, whereArgs...)` is a plain append. -/
theorem append_whereArgs {V : Type} (values whereArgs : List V) :
    (if whereArgs.length > 0 then values ++ whereArgs else values) = values ++ whereArgs := by
  cases whereArgs <;> simp

theorem Database_internalInsert_loop_eq {V : Type} (data : List (String × V)) :
    Database.internalInsert.loop data
      = (data.map (fun entry => "`" ++ entry.1 ++ "` = ?"), data.map Prod.snd) := by
  unfold Database.internalInsert.loop
  simpa using rangeLoop_eq data [] []

theorem Database_Update_loop_eq {V : Type} (data : List (String × V)) :
    Database.Update.loop data
      = (data.map (fun entry => "`" ++ entry.1 ++ "` = ?"), data.map Prod.snd) := by
  unfold Database.Update.loop
  simpa using rangeLoop_eq data [] []

theorem DatabaseTx_internalInsert_loop_eq {V : Type} (data : List (String × V)) :
    DatabaseTx.internalInsert.loop data
      = (data.map (fun entry => "`" ++ entry.1 ++ "` = ?"), data.map Prod.snd) := by
  unfold DatabaseTx.internalInsert.loop
  simpa using rangeLoop_eq data [] []

theorem DatabaseTx_Update_loop_eq {V : Type} (data : List (String × V)) :
    DatabaseTx.Update.loop data
      = (data.map (fun entry => "`" ++ entry.1 ++ "` = ?"), data.map Prod.snd) := by
  unfold DatabaseTx.Update.loop
  simpa using rangeLoop_eq data [] []

theorem mysql_internalInsert_loop_eq {V : Type} (data : List (String × V)) :
    mysql.internalInsert.loop data
      = (data.map (fun entry => "`" ++ entry.1 ++ "` = ?"), data.map Prod.snd) := by
  unfold mysql.internalInsert.loop
  simpa using rangeLoop_eq data [] []

theorem mysql_Update_loop_eq {V : Type} (data : List (String × V)) :
    mysql.Update.loop data
      = (data.map (fun entry => "`" ++ entry.1 ++ "` = ?"), data.map Prod.snd) := by
  unfold mysql.Update.loop
  simpa using rangeLoop_eq data [] []

theorem mysql_txInternalInsert_loop_eq {V : Type} (data : List (String × V)) :
    mysql.txInternalInsert.loop data
      = (data.map (fun entry => "`" ++ entry.1 ++ "` = ?"), data.map Prod.snd) := by
  unfold mysql.txInternalInsert.loop
  simpa using rangeLoop_eq data [] []

theorem mysql_TxUpdate_loop_eq {V : Type} (data : List (String × V)) :
    mysql.TxUpdate.loop data
      = (data.map (fun entry => "`" ++ entry.1 ++ "` = ?"), data.map Prod.snd) := by
  unfold mysql.TxUpdate.loop
  simpa using rangeLoop_eq data [] []

/-! ## What each operation sends to the driver, and how it ends -/

theorem Database_internalInsert_log {V : Type} (database : Database V) (data : List (String × V))
    (tblName insertType : String) :
    (database.internalInsert data tblName insertType).1.db.log = database.db.log ++
      [Call.exec (insertType ++ " INTO " ++ tblName ++ " SET " ++
          stringsJoin (Database.internalInsert.loop data).1 ", ")
        (Database.internalInsert.loop data).2] := by
  unfold Database.internalInsert
  simp only [SqlDB.Exec]
  generalize database.db.execFn _ _ = r
  cases r <;> rfl

theorem Database_internalInsert_outcome {V : Type} (database : Database V)
    (data : List (String × V)) (tblName insertType : String) :
    (database.internalInsert data tblName insertType).2 =
      match database.db.execFn (insertType ++ " INTO " ++ tblName ++ " SET " ++
          stringsJoin (Database.internalInsert.loop data).1 ", ")
        (Database.internalInsert.loop data).2 with
      | Except.error err => Outcome.panicked err
      | Except.ok result => Outcome.returned (result.lastInsertId.1, none) := by
  unfold Database.internalInsert
  simp only [SqlDB.Exec]
  generalize database.db.execFn _ _ = r
  cases r <;> rfl

theorem Database_Update_log {V : Type} (database : Database V) (data : List (String × V))
    (tblName whereStr : String) (whereArgs : List V) :
    (database.Update data tblName whereStr whereArgs).1.db.log = database.db.log ++
      [Call.exec ("UPDATE " ++ tblName ++ " SET " ++
          stringsJoin (Database.Update.loop data).1 ", " ++
          " WHERE " ++ whereStr)
        ((Database.Update.loop data).2 ++ whereArgs)] := by
  unfold Database.Update
  simp only [SqlDB.Exec, append_whereArgs]
  generalize database.db.execFn _ _ = r
  cases r <;> rfl

theorem Database_Update_outcome {V : Type} (database : Database V) (data : List (String × V))
    (tblName whereStr : String) (whereArgs : List V) :
    (database.Update data tblName whereStr whereArgs).2 =
      match database.db.execFn ("UPDATE " ++ tblName ++ " SET " ++
          stringsJoin (Database.Update.loop data).1 ", " ++
          " WHERE " ++ whereStr)
        ((Database.Update.loop data).2 ++ whereArgs) with
      | Except.error err => Outcome.panicked err
      | Except.ok result => Outcome.returned (result.rowsAffected.1, none) := by
  unfold Database.Update
  simp only [SqlDB.Exec, append_whereArgs]
  generalize database.db.execFn _ _ = r
  cases r <;> rfl

theorem Database_Delete_log {V : Type} (database : Database V) (tblName whereStr : String)
    (whereArgs : List V) :
    (database.Delete tblName whereStr whereArgs).1.db.log = database.db.log ++
      [Call.exec ("DELETE FROM " ++ tblName ++ " WHERE " ++ whereStr) whereArgs] := by
  unfold Database.Delete
  simp only [SqlDB.Exec]
  generalize database.db.execFn _ _ = r
  cases r <;> rfl

theorem Database_Delete_outcome {V : Type} (database : Database V) (tblName whereStr : String)
    (whereArgs : List V) :
    (database.Delete tblName whereStr whereArgs).2 =
      match database.db.execFn ("DELETE FROM " ++ tblName ++ " WHERE " ++ whereStr) whereArgs with
      | Except.error err => Outcome.panicked err
      | Except.ok result => Outcome.returned (result.rowsAffected.1, none) := by
  unfold Database.Delete
  simp only [SqlDB.Exec]
  generalize database.db.execFn _ _ = r
  cases r <;> rfl

theorem Database_Query_log {V : Type} (database : Database V) (sql : String) (args : List V) :
    (database.Query sql args).1.db.log = database.db.log ++ [Call.query sql args] := by
  unfold Database.Query
  simp only [SqlDB.Query]
  generalize database.db.queryFn _ _ = r
  cases r <;> rfl

theorem Database_Query_outcome {V : Type} (database : Database V) (sql : String) (args : List V) :
    (database.Query sql args).2 =
      match database.db.queryFn sql args with
      | Except.error err => Outcome.panicked err
      | Except.ok rows => Outcome.returned (rows, none) := by
  unfold Database.Query
  simp only [SqlDB.Query]
  generalize database.db.queryFn _ _ = r
  cases r <;> rfl

theorem DatabaseTx_internalInsert_log {V : Type} (databaseTx : DatabaseTx V)
    (data : List (String × V)) (tblName insertType : String) :
    (databaseTx.internalInsert data tblName insertType).1.tx.log = databaseTx.tx.log ++
      [Call.exec (insertType ++ " INTO " ++ tblName ++ " SET " ++
          stringsJoin (DatabaseTx.internalInsert.loop data).1 ", ")
        (DatabaseTx.internalInsert.loop data).2] := by
  unfold DatabaseTx.internalInsert
  simp only [SqlTx.Exec]
  generalize databaseTx.tx.execFn _ _ = r
  cases r <;> rfl

theorem DatabaseTx_internalInsert_outcome {V : Type} (databaseTx : DatabaseTx V)
    (data : List (String × V)) (tblName insertType : String) :
    (databaseTx.internalInsert data tblName insertType).2 =
      match databaseTx.tx.execFn (insertType ++ " INTO " ++ tblName ++ " SET " ++
          stringsJoin (DatabaseTx.internalInsert.loop data).1 ", ")
        (DatabaseTx.internalInsert.loop data).2 with
      | Except.error err => Outcome.panicked err
      | Except.ok result => Outcome.returned (result.lastInsertId.1, none) := by
  unfold DatabaseTx.internalInsert
  simp only [SqlTx.Exec]
  generalize databaseTx.tx.execFn _ _ = r
  cases r <;> rfl

theorem DatabaseTx_Update_log {V : Type} (databaseTx : DatabaseTx V) (data : List (String × V))
    (tblName whereStr : String) (whereArgs : List V) :
    (databaseTx.Update data tblName whereStr whereArgs).1.tx.log = databaseTx.tx.log ++
      [Call.exec ("UPDATE " ++ tblName ++ " SET " ++
          stringsJoin (DatabaseTx.Update.loop data).1 ", " ++
          " WHERE " ++ whereStr)
        ((DatabaseTx.Update.loop data).2 ++ whereArgs)] := by
  unfold DatabaseTx.Update
  simp only [SqlTx.Exec, append_whereArgs]
  generalize databaseTx.tx.execFn _ _ = r
  cases r <;> rfl

theorem DatabaseTx_Update_outcome {V : Type} (databaseTx : DatabaseTx V) (data : List (String × V))
    (tblName whereStr : String) (whereArgs : List V) :
    (databaseTx.Update data tblName whereStr whereArgs).2 =
      match databaseTx.tx.execFn ("UPDATE " ++ tblName ++ " SET " ++
          stringsJoin (DatabaseTx.Update.loop data).1 ", " ++
          " WHERE " ++ whereStr)
        ((DatabaseTx.Update.loop data).2 ++ whereArgs) with
      | Except.error err => Outcome.panicked err
      | Except.ok result => Outcome.returned (result.rowsAffected.1, none) := by
  unfold DatabaseTx.Update
  simp only [SqlTx.Exec, append_whereArgs]
  generalize databaseTx.tx.execFn _ _ = r
  cases r <;> rfl

theorem DatabaseTx_Delete_log {V : Type} (databaseTx : DatabaseTx V) (tblName whereStr : String)
    (whereArgs : List V) :
    (databaseTx.Delete tblName whereStr whereArgs).1.tx.log = databaseTx.tx.log ++
      [Call.exec ("DELETE FROM " ++ tblName ++ " WHERE " ++ whereStr) whereArgs] := by
  unfold DatabaseTx.Delete
  simp only [SqlTx.Exec]
  generalize databaseTx.tx.execFn _ _ = r
  cases r <;> rfl

theorem DatabaseTx_Delete_outcome {V : Type} (databaseTx : DatabaseTx V)
    (tblName whereStr : String) (whereArgs : List V) :
    (databaseTx.Delete tblName whereStr whereArgs).2 =
      match databaseTx.tx.execFn ("DELETE FROM " ++ tblName ++ " WHERE " ++ whereStr) whereArgs with
      | Except.error err => Outcome.panicked err
      | Except.ok result => Outcome.returned (result.rowsAffected.1, none) := by
  unfold DatabaseTx.Delete
  simp only [SqlTx.Exec]
  generalize databaseTx.tx.execFn _ _ = r
  cases r <;> rfl

theorem DatabaseTx_Query_log {V : Type} (databaseTx : DatabaseTx V) (sql : String) (args : List V) :
    (databaseTx.Query sql args).1.tx.log = databaseTx.tx.log ++ [Call.query sql args] := by
  unfold DatabaseTx.Query
  simp only [SqlTx.Query]
  generalize databaseTx.tx.queryFn _ _ = r
  cases r <;> rfl

theorem DatabaseTx_Query_outcome {V : Type} (databaseTx : DatabaseTx V) (sql : String)
    (args : List V) :
    (databaseTx.Query sql args).2 =
      match databaseTx.tx.queryFn sql args with
      | Except.error err => Outcome.panicked err
      | Except.ok rows => Outcome.returned (rows, none) := by
  unfold DatabaseTx.Query
  simp only [SqlTx.Query]
  generalize databaseTx.tx.queryFn _ _ = r
  cases r <;> rfl

theorem Database_Begin_outcome {V : Type} (database : Database V) :
    database.Begin.2 =
      match database.db.beginFn with
      | Except.error err => Outcome.panicked err
      | Except.ok tx => Outcome.returned ({ tx := tx }, none) := by
  unfold Database.Begin
  simp only [SqlDB.Begin]
  generalize database.db.beginFn = r
  cases r <;> rfl

theorem mysql_internalInsert_log {V : Type} (db : SqlDB V) (data : List (String × V))
    (tblName insertType : String) :
    (mysql.internalInsert db data tblName insertType).1.log = db.log ++
      [Call.exec (insertType ++ " INTO " ++ tblName ++ " SET " ++
          stringsJoin (mysql.internalInsert.loop data).1 ", ")
        (mysql.internalInsert.loop data).2] := by
  unfold mysql.internalInsert
  simp only [SqlDB.Exec]

theorem mysql_Update_log {V : Type} (db : SqlDB V) (data : List (String × V))
    (tblName whereStr : String) (whereArgs : List V) :
    (mysql.Update db data tblName whereStr whereArgs).1.log = db.log ++
      [Call.exec ("UPDATE " ++ tblName ++ " SET " ++ stringsJoin (mysql.Update.loop data).1 ", " ++
          " WHERE " ++ whereStr)
        ((mysql.Update.loop data).2 ++ whereArgs)] := by
  unfold mysql.Update
  simp only [SqlDB.Exec, append_whereArgs]

theorem mysql_Delete_log {V : Type} (db : SqlDB V) (tblName whereStr : String)
    (whereArgs : List V) :
    (mysql.Delete db tblName whereStr whereArgs).1.log = db.log ++
      [Call.exec ("DELETE FROM " ++ tblName ++ " WHERE " ++ whereStr) whereArgs] := by
  unfold mysql.Delete
  simp only [SqlDB.Exec]

theorem mysql_txInternalInsert_log {V : Type} (tx : SqlTx V) (data : List (String × V))
    (tblName insertType : String) :
    (mysql.txInternalInsert tx data tblName insertType).1.log = tx.log ++
      [Call.exec (insertType ++ " INTO " ++ tblName ++ " SET " ++
          stringsJoin (mysql.txInternalInsert.loop data).1 ", ")
        (mysql.txInternalInsert.loop data).2] := by
  unfold mysql.txInternalInsert
  simp only [SqlTx.Exec]

theorem mysql_TxUpdate_log {V : Type} (tx : SqlTx V) (data : List (String × V))
    (tblName whereStr : String) (whereArgs : List V) :
    (mysql.TxUpdate tx data tblName whereStr whereArgs).1.log = tx.log ++
      [Call.exec ("UPDATE " ++ tblName ++ " SET " ++
          stringsJoin (mysql.TxUpdate.loop data).1 ", " ++
          " WHERE " ++ whereStr)
        ((mysql.TxUpdate.loop data).2 ++ whereArgs)] := by
  unfold mysql.TxUpdate
  simp only [SqlTx.Exec, append_whereArgs]

theorem mysql_TxDelete_log {V : Type} (tx : SqlTx V) (tblName whereStr : String)
    (whereArgs : List V) :
    (mysql.TxDelete tx tblName whereStr whereArgs).1.log = tx.log ++
      [Call.exec ("DELETE FROM " ++ tblName ++ " WHERE " ++ whereStr) whereArgs] := by
  unfold mysql.TxDelete
  simp only [SqlTx.Exec]

/-! ## Lemmas on maps held as entry lists -/

theorem mapGet_eq_some_of_mem {β : Type} {m : List (String × β)} (hm : (mapKeys m).Nodup)
    {k : String} {v : β} (h : (k, v) ∈ m) : mapGet m k = some v := by
  induction m with
  | nil => simp at h
  | cons e rest ih =>
    obtain ⟨k0, v0⟩ := e
    simp only [mapKeys, List.map_cons, List.nodup_cons] at hm
    rcases List.mem_cons.1 h with h | h
    · cases h
      simp [mapGet]
    · have hne : k0 ≠ k := by
        rintro rfl
        exact hm.1 (List.mem_map_of_mem Prod.fst h)
      simp [mapGet, hne, ih hm.2 h]

theorem mapGet_eq_none_of_not_mem {β : Type} {m : List (String × β)} {k : String}
    (h : k ∉ mapKeys m) : mapGet m k = none := by
  induction m with
  | nil => rfl
  | cons e rest ih =>
    obtain ⟨k0, v0⟩ := e
    simp only [mapKeys, List.map_cons, List.mem_cons, not_or] at h
    have hne : k0 ≠ k := fun hk => h.1 hk.symm
    simp [mapGet, hne, ih h.2]

theorem mem_of_mapGet_eq_some {β : Type} {m : List (String × β)} {k : String} {v : β}
    (h : mapGet m k = some v) : (k, v) ∈ m := by
  induction m with
  | nil => simp [mapGet] at h
  | cons e rest ih =>
    obtain ⟨k0, v0⟩ := e
    by_cases hk : k0 = k
    · subst hk
      simp only [mapGet, if_true, Option.some.injEq] at h
      subst h
      exact List.mem_cons_self _ _
    · simp only [mapGet, hk, if_false] at h
      exact List.mem_cons_of_mem _ (ih h)

theorem mapGet_mapSet {β : Type} (m : List (String × β)) (k x : String) (v : β) :
    mapGet (mapSet m k v) x = if k = x then some v else mapGet m x := by
  induction m with
  | nil => simp [mapSet, mapGet]
  | cons e rest ih =>
    obtain ⟨k0, v0⟩ := e
    by_cases hk : k0 = k
    · subst hk
      by_cases hx : k0 = x <;> simp [mapSet, mapGet, hx]
    · by_cases hx : k0 = x
      · subst hx
        have hk2 : ¬ k = k0 := fun h => hk h.symm
        simp [mapSet, mapGet, hk, hk2]
      · simp [mapSet, mapGet, hk, hx, ih]

theorem mem_mapKeys_mapSet {β : Type} (m : List (String × β)) (k x : String) (v : β) :
    x ∈ mapKeys (mapSet m k v) ↔ x = k ∨ x ∈ mapKeys m := by
  induction m with
  | nil => simp [mapSet, mapKeys]
  | cons e rest ih =>
    obtain ⟨k0, v0⟩ := e
    by_cases hk : k0 = k
    · subst hk
      simp [mapSet, mapKeys]
    · simp only [mapKeys] at ih
      simp only [mapSet, hk, if_false, mapKeys, List.map_cons, List.mem_cons, ih]
      tauto

theorem nodup_mapKeys_mapSet {β : Type} (m : List (String × β)) (k : String) (v : β)
    (hm : (mapKeys m).Nodup) : (mapKeys (mapSet m k v)).Nodup := by
  induction m with
  | nil => simp [mapSet, mapKeys]
  | cons e rest ih =>
    obtain ⟨k0, v0⟩ := e
    have hm2 := hm
    simp only [mapKeys, List.map_cons, List.nodup_cons] at hm2
    by_cases hk : k0 = k
    · subst hk
      simpa [mapSet, mapKeys] using hm
    · have hmem := mem_mapKeys_mapSet rest k k0 v
      simp only [mapKeys] at hmem ih
      rw [mapSet, if_neg hk]
      simp only [mapKeys, List.map_cons, List.nodup_cons]
      refine ⟨?_, ih hm2.2⟩
      intro h
      rcases hmem.1 h with h | h
      · exact hk h
      · exact hm2.1 h

/-- Ranging over `es` and storing every entry: the keys afterwards. -/
theorem mem_mapKeys_foldl_mapSet {β : Type} (es m : List (String × β)) (x : String) :
    x ∈ mapKeys (es.foldl (fun acc entry => mapSet acc entry.1 entry.2) m)
      ↔ x ∈ mapKeys m ∨ x ∈ mapKeys es := by
  induction es generalizing m with
  | nil => simp [mapKeys]
  | cons e rest ih =>
    rw [List.foldl_cons, ih, mem_mapKeys_mapSet]
    simp only [mapKeys, List.map_cons, List.mem_cons]
    tauto

theorem nodup_mapKeys_foldl_mapSet {β : Type} (es m : List (String × β))
    (hm : (mapKeys m).Nodup) :
    (mapKeys (es.foldl (fun acc entry => mapSet acc entry.1 entry.2) m)).Nodup := by
  induction es generalizing m with
  | nil => simpa using hm
  | cons e rest ih =>
    rw [List.foldl_cons]
    exact ih _ (nodup_mapKeys_mapSet m e.1 e.2 hm)

/-- Ranging over `es` and storing every entry: the stored values afterwards. -/
theorem mapGet_foldl_mapSet {β : Type} (es m : List (String × β)) (hes : (mapKeys es).Nodup)
    (x : String) :
    mapGet (es.foldl (fun acc entry => mapSet acc entry.1 entry.2) m) x
      = if x ∈ mapKeys es then mapGet es x else mapGet m x := by
  induction es generalizing m with
  | nil => simp [mapKeys]
  | cons e rest ih =>
    obtain ⟨k0, v0⟩ := e
    have hes2 := hes
    simp only [mapKeys, List.map_cons, List.nodup_cons] at hes2
    rw [List.foldl_cons, ih _ hes2.2, mapGet_mapSet]
    by_cases hx : k0 = x
    · subst hx
      have h0 : k0 ∉ mapKeys rest := hes2.1
      have h1 : k0 ∈ mapKeys ((k0, v0) :: rest) := List.mem_cons_self _ _
      rw [if_neg h0, if_pos rfl, if_pos h1]
      simp [mapGet]
    · have hx2 : ¬ x = k0 := fun h => hx h.symm
      have hiff : x ∈ mapKeys ((k0, v0) :: rest) ↔ x ∈ mapKeys rest := by
        simp [mapKeys, hx2]
      rw [if_neg hx]
      simp only [hiff, mapGet, if_neg hx]

/-! ## Lemmas on the text of the terms -/

/-- Distinct column names give distinct assignment terms. -/
theorem term_injective :
    Function.Injective (fun k : String => "`" ++ k ++ "` = ?") := by
  intro a b h
  have h2 := congrArg String.data h
  simp only [String.data_append] at h2
  have h3 := List.append_cancel_right h2
  have h4 := List.append_cancel_left h3
  exact String.ext h4

theorem placeholders_append (a b : String) :
    placeholders (a ++ b) = placeholders a + placeholders b := by
  simp [placeholders, String.data_append, List.count_append]

/-- A term carries exactly one placeholder when the column name carries none. -/
theorem placeholders_term (k : String) (hk : '?' ∉ k.data) :
    placeholders ("`" ++ k ++ "` = ?") = 1 := by
  have h0 : placeholders k = 0 := List.count_eq_zero_of_not_mem hk
  have h1 : placeholders "`" = 0 := by decide
  have h2 : placeholders "` = ?" = 1 := by decide
  rw [placeholders_append, placeholders_append, h0, h1, h2]

/-- The joined SET clause carries one placeholder per term. -/
theorem placeholders_join_terms (ks : List String) (hks : ∀ k ∈ ks, '?' ∉ k.data) :
    placeholders (stringsJoin (ks.map (fun k => "`" ++ k ++ "` = ?")) ", ") = ks.length := by
  induction ks with
  | nil => decide
  | cons a rest ih =>
    cases rest with
    | nil => simpa [stringsJoin] using placeholders_term a (hks a (List.mem_cons_self _ _))
    | cons b rest2 =>
      have ha := placeholders_term a (hks a (List.mem_cons_self _ _))
      have hsep : placeholders ", " = 0 := by decide
      have hrest := ih (fun k hk => hks k (List.mem_cons_of_mem _ hk))
      simp only [List.map_cons] at hrest
      simp only [List.map_cons, stringsJoin, placeholders_append, ha, hsep, hrest,
        List.length_cons]
      omega

/-! ## Statement construction -/

/-- C1: for a field-value mapping `F` with `N ≥ 1` entries and distinct keys, ranged over in
any order `data`, and any table name `T`, `Database.Insert` joins a list of exactly `N`
assignment terms into the SET clause and passes exactly `N` bound values to the driver's
`Exec`, in one call. -/
theorem Insert_term_count_and_value_count {V : Type} (database : Database V)
    (F data : List (String × V)) (T : String)
    (_hkeys : (mapKeys F).Nodup) (_hN : 1 ≤ F.length) (horder : data.Perm F) :
    (Database.internalInsert.loop data).1.length = F.length ∧
    (Database.internalInsert.loop data).2.length = F.length ∧
    (database.Insert data T).1.db.log = database.db.log ++
      [Call.exec ("INSERT" ++ " INTO " ++ T ++ " SET " ++
          stringsJoin (Database.internalInsert.loop data).1 ", ")
        (Database.internalInsert.loop data).2] := by
  refine ⟨?_, ?_, Database_internalInsert_log database data T "INSERT"⟩
  · rw [Database_internalInsert_loop_eq, List.length_map, horder.length_eq]
  · rw [Database_internalInsert_loop_eq, List.length_map, horder.length_eq]

/-- C1 at `sampleFields`, ranged over as `sampleOrder`. -/
theorem Insert_term_count_and_value_count_witness :
    (Database.internalInsert.loop sampleOrder).1.length = sampleFields.length ∧
    (Database.internalInsert.loop sampleOrder).2.length = sampleFields.length ∧
    (sampleDatabase.Insert sampleOrder "users").1.db.log = sampleDatabase.db.log ++
      [Call.exec ("INSERT" ++ " INTO " ++ "users" ++ " SET " ++
          stringsJoin (Database.internalInsert.loop sampleOrder).1 ", ")
        (Database.internalInsert.loop sampleOrder).2] :=
  Insert_term_count_and_value_count sampleDatabase sampleFields sampleOrder "users"
    (by decide) (by decide) (by decide)

/-- Position `i` of the two slices built from `data` holds the term of a key of `F` and the
value `F` stores under that key. -/
theorem paired_at {V : Type} (F data : List (String × V)) (hkeys : (mapKeys F).Nodup)
    (horder : data.Perm F) (i : Nat) (hi : i < F.length) :
    ∃ k v, mapGet F k = some v ∧
      (data.map (fun entry => "`" ++ entry.1 ++ "` = ?"))[i]? = some ("`" ++ k ++ "` = ?") ∧
      (data.map Prod.snd)[i]? = some v := by
  have hlen : i < data.length := by rw [horder.length_eq]; exact hi
  refine ⟨(data.get ⟨i, hlen⟩).1, (data.get ⟨i, hlen⟩).2, ?_, ?_, ?_⟩
  · apply mapGet_eq_some_of_mem hkeys
    exact horder.subset (List.get_mem data i hlen)
  · simp [List.getElem?_map, List.getElem?_eq_getElem hlen]
  · simp [List.getElem?_map, List.getElem?_eq_getElem hlen]

/-- A key of `F` has exactly one term among those built from `data`. -/
theorem term_count_eq_one {V : Type} (F data : List (String × V)) (hkeys : (mapKeys F).Nodup)
    (horder : data.Perm F) (k : String) (hk : k ∈ mapKeys F) :
    (data.map (fun entry => "`" ++ entry.1 ++ "` = ?")).count ("`" ++ k ++ "` = ?") = 1 := by
  have hperm : (mapKeys data).Perm (mapKeys F) := horder.map Prod.fst
  have hnd : (mapKeys data).Nodup := hperm.nodup_iff.2 hkeys
  have hmem : k ∈ mapKeys data := hperm.mem_iff.2 hk
  have hmap : data.map (fun entry => "`" ++ entry.1 ++ "` = ?")
      = (mapKeys data).map (fun k : String => "`" ++ k ++ "` = ?") := by
    simp [mapKeys, List.map_map, Function.comp_def]
  rw [hmap]
  exact List.count_eq_one_of_mem (hnd.map term_injective)
    (List.mem_map_of_mem (fun k : String => "`" ++ k ++ "` = ?") hmem)

/-- C2: terms and bound values stay paired.  For a mapping `F` with distinct keys, ranged
over in any order `data`: at every index `i < |F|` the `i`-th term built by
`Database.internalInsert` and by `Database.Update` is the quoted name of a key `k` of `F`
followed by the placeholder, and the `i`-th value is `F[k]` for that same `k`; every key of
`F` has exactly one term; and these slices are what the two operations join into the text
and bind in their `Exec` call. -/
theorem terms_and_values_paired {V : Type} (database : Database V)
    (F data : List (String × V)) (T verb W : String) (A : List V)
    (hkeys : (mapKeys F).Nodup) (horder : data.Perm F) :
    (∀ i, i < F.length → ∃ k v, mapGet F k = some v ∧
        (Database.internalInsert.loop data).1[i]? = some ("`" ++ k ++ "` = ?") ∧
        (Database.internalInsert.loop data).2[i]? = some v ∧
        (Database.Update.loop data).1[i]? = some ("`" ++ k ++ "` = ?") ∧
        ((Database.Update.loop data).2 ++ A)[i]? = some v) ∧
    (∀ k, k ∈ mapKeys F →
        (Database.internalInsert.loop data).1.count ("`" ++ k ++ "` = ?") = 1 ∧
        (Database.Update.loop data).1.count ("`" ++ k ++ "` = ?") = 1) ∧
    (database.internalInsert data T verb).1.db.log = database.db.log ++
      [Call.exec (verb ++ " INTO " ++ T ++ " SET " ++
          stringsJoin (Database.internalInsert.loop data).1 ", ")
        (Database.internalInsert.loop data).2] ∧
    (database.Update data T W A).1.db.log = database.db.log ++
      [Call.exec ("UPDATE " ++ T ++ " SET " ++
          stringsJoin (Database.Update.loop data).1 ", " ++ " WHERE " ++ W)
        ((Database.Update.loop data).2 ++ A)] := by
  refine ⟨?_, ?_, Database_internalInsert_log database data T verb,
    Database_Update_log database data T W A⟩
  · intro i hi
    obtain ⟨k, v, hget, hterm, hval⟩ := paired_at F data hkeys horder i hi
    refine ⟨k, v, hget, ?_, ?_, ?_, ?_⟩
    · rw [Database_internalInsert_loop_eq]; exact hterm
    · rw [Database_internalInsert_loop_eq]; exact hval
    · rw [Database_Update_loop_eq]; exact hterm
    · have hlen : i < (data.map Prod.snd).length := by
        rw [List.length_map, horder.length_eq]; exact hi
      rw [Database_Update_loop_eq, List.getElem?_append_left hlen]
      exact hval
  · intro k hk
    have h := term_count_eq_one F data hkeys horder k hk
    constructor
    · rw [Database_internalInsert_loop_eq]; exact h
    · rw [Database_Update_loop_eq]; exact h

/-- C2 at `sampleFields`, ranged over as `sampleOrder`. -/
theorem terms_and_values_paired_witness :
    (∀ i, i < sampleFields.length → ∃ k v, mapGet sampleFields k = some v ∧
        (Database.internalInsert.loop sampleOrder).1[i]? = some ("`" ++ k ++ "` = ?") ∧
        (Database.internalInsert.loop sampleOrder).2[i]? = some v ∧
        (Database.Update.loop sampleOrder).1[i]? = some ("`" ++ k ++ "` = ?") ∧
        ((Database.Update.loop sampleOrder).2 ++ [5])[i]? = some v) ∧
    (∀ k, k ∈ mapKeys sampleFields →
        (Database.internalInsert.loop sampleOrder).1.count ("`" ++ k ++ "` = ?") = 1 ∧
        (Database.Update.loop sampleOrder).1.count ("`" ++ k ++ "` = ?") = 1) ∧
    (sampleDatabase.internalInsert sampleOrder "users" "REPLACE").1.db.log =
      sampleDatabase.db.log ++
      [Call.exec ("REPLACE" ++ " INTO " ++ "users" ++ " SET " ++
          stringsJoin (Database.internalInsert.loop sampleOrder).1 ", ")
        (Database.internalInsert.loop sampleOrder).2] ∧
    (sampleDatabase.Update sampleOrder "users" "id=?" [5]).1.db.log = sampleDatabase.db.log ++
      [Call.exec ("UPDATE " ++ "users" ++ " SET " ++
          stringsJoin (Database.Update.loop sampleOrder).1 ", " ++ " WHERE " ++ "id=?")
        ((Database.Update.loop sampleOrder).2 ++ [5])] :=
  terms_and_values_paired sampleDatabase sampleFields sampleOrder "users" "REPLACE" "id=?" [5]
    (by decide) (by decide)

/-- C3: for a mapping `F` ranged over in any order `data`, table `T`, where clause `W` and
argument list `A` (possibly empty), `Database.Update` sends, in one `Exec` call, the text
`"UPDATE " + T + " SET " + terms + " WHERE " + W` and binds the values of `F` in term order
followed by `A`: `|F| + |A|` values with `A` as the suffix in its original order.  With
`W = "id=?"` and the single argument `a` it binds `|F| + 1` values, the last being `a`. -/
theorem Update_text_and_bound_values {V : Type} (database : Database V)
    (F data : List (String × V)) (T W : String) (A : List V) (a : V)
    (horder : data.Perm F) :
    ((database.Update data T W A).1.db.log = database.db.log ++
      [Call.exec ("UPDATE " ++ T ++ " SET " ++
          stringsJoin (data.map (fun entry => "`" ++ entry.1 ++ "` = ?")) ", " ++
          " WHERE " ++ W)
        (data.map Prod.snd ++ A)] ∧
     (data.map Prod.snd).length = F.length ∧
     (data.map Prod.snd ++ A).length = F.length + A.length) ∧
    ((database.Update data T "id=?" [a]).1.db.log = database.db.log ++
      [Call.exec ("UPDATE " ++ T ++ " SET " ++
          stringsJoin (data.map (fun entry => "`" ++ entry.1 ++ "` = ?")) ", " ++
          " WHERE " ++ "id=?")
        (data.map Prod.snd ++ [a])] ∧
     (data.map Prod.snd ++ [a]).length = F.length + 1 ∧
     (data.map Prod.snd ++ [a]).getLast? = some a) := by
  have hlog : ∀ (W0 : String) (A0 : List V),
      (database.Update data T W0 A0).1.db.log = database.db.log ++
        [Call.exec ("UPDATE " ++ T ++ " SET " ++
            stringsJoin (data.map (fun entry => "`" ++ entry.1 ++ "` = ?")) ", " ++
            " WHERE " ++ W0)
          (data.map Prod.snd ++ A0)] := by
    intro W0 A0
    have h := Database_Update_log database data T W0 A0
    rw [Database_Update_loop_eq] at h
    exact h
  refine ⟨⟨hlog W A, ?_, ?_⟩, hlog "id=?" [a], ?_, ?_⟩
  · rw [List.length_map, horder.length_eq]
  · rw [List.length_append, List.length_map, horder.length_eq]
  · rw [List.length_append, List.length_map, horder.length_eq]; rfl
  · simp

/-- C3 at `sampleFields`, ranged over as `sampleOrder`, with the argument `5`. -/
theorem Update_text_and_bound_values_witness :
    (sampleDatabase.Update sampleOrder "users" "id=?" [5]).1.db.log =
      [Call.exec "UPDATE users SET `age` = ?, `name` = ? WHERE id=?" [30, 1, 5]] ∧
    ([30, 1, 5] : List Int).length = sampleFields.length + 1 ∧
    ([30, 1, 5] : List Int).getLast? = some 5 :=
  have h := Update_text_and_bound_values sampleDatabase sampleFields sampleOrder "users"
    "id=?" [5] 5 (by decide)
  ⟨h.2.1, h.2.2.1, h.2.2.2⟩

/-- C4: for every table `T`, where clause `W` and argument list `A`, `Database.Delete` sends,
in one `Exec` call, exactly the text `"DELETE FROM " + T + " WHERE " + W` and binds exactly
`A`, unchanged and in order; with `W = "id=?"` and the single argument `a` it binds exactly
one value, `a`. -/
theorem Delete_text_and_bound_values {V : Type} (database : Database V) (T W : String)
    (A : List V) (a : V) :
    (database.Delete T W A).1.db.log = database.db.log ++
      [Call.exec ("DELETE FROM " ++ T ++ " WHERE " ++ W) A] ∧
    (database.Delete T "id=?" [a]).1.db.log = database.db.log ++
      [Call.exec ("DELETE FROM " ++ T ++ " WHERE " ++ "id=?") [a]] ∧
    [a].length = 1 :=
  ⟨Database_Delete_log database T W A, Database_Delete_log database T "id=?" [a], rfl⟩

/-- C5: the text sent by `Database.Insert`, `Ignore` and `Replace` is
`verb + " INTO " + T + " SET " + (the terms joined with ", ")` with `verb` being `INSERT`,
`INSERT IGNORE` and `REPLACE`; for the same entries in the same order the three texts are
their verb followed by one common remainder, and the three calls bind the same values. -/
theorem Insert_Ignore_Replace_text {V : Type} (database : Database V)
    (data : List (String × V)) (T : String) :
    (database.Insert data T).1.db.log = database.db.log ++
      [Call.exec ("INSERT" ++ (" INTO " ++ T ++ " SET " ++
          stringsJoin (data.map (fun entry => "`" ++ entry.1 ++ "` = ?")) ", "))
        (data.map Prod.snd)] ∧
    (database.Ignore data T).1.db.log = database.db.log ++
      [Call.exec ("INSERT IGNORE" ++ (" INTO " ++ T ++ " SET " ++
          stringsJoin (data.map (fun entry => "`" ++ entry.1 ++ "` = ?")) ", "))
        (data.map Prod.snd)] ∧
    (database.Replace data T).1.db.log = database.db.log ++
      [Call.exec ("REPLACE" ++ (" INTO " ++ T ++ " SET " ++
          stringsJoin (data.map (fun entry => "`" ++ entry.1 ++ "` = ?")) ", "))
        (data.map Prod.snd)] := by
  have hlog : ∀ verb : String,
      (database.internalInsert data T verb).1.db.log = database.db.log ++
        [Call.exec (verb ++ (" INTO " ++ T ++ " SET " ++
            stringsJoin (data.map (fun entry => "`" ++ entry.1 ++ "` = ?")) ", "))
          (data.map Prod.snd)] := by
    intro verb
    have h := Database_internalInsert_log database data T verb
    rw [Database_internalInsert_loop_eq] at h
    simpa only [String.append_assoc] using h
  exact ⟨hlog "INSERT", hlog "INSERT IGNORE", hlog "REPLACE"⟩

/-! ## Connection options -/

/-- The five defaults, as stored before `customParams` is ranged over. -/
theorem Database_Connect_params_eq (charset : String) (customParams : List (String × String)) :
    Database.Connect.params charset customParams =
      customParams.foldl (fun params entry => mapSet params entry.1 entry.2)
        [("charset", charset), ("parseTime", "true"), ("readTimeout", "30m"),
        ("writeTimeout", "1m"), ("allowNativePasswords", "true")] := by
  simp [Database.Connect.params, mapSet]

theorem mysql_Connect_params_eq (charset : String) (customParams : List (String × String)) :
    mysql.Connect.params charset customParams =
      customParams.foldl (fun params entry => mapSet params entry.1 entry.2)
        [("charset", charset), ("parseTime", "true"), ("readTimeout", "30m"),
        ("writeTimeout", "1m"), ("allowNativePasswords", "true")] := by
  simp [mysql.Connect.params, mapSet]

/-- Defaults, then custom entries stored over them: the merged map. -/
theorem merged_params (charset : String) (P order : List (String × String))
    (hkeys : (mapKeys P).Nodup) (horder : order.Perm P) (m : List (String × String))
    (hm : m = order.foldl (fun params entry => mapSet params entry.1 entry.2)
        [("charset", charset), ("parseTime", "true"), ("readTimeout", "30m"),
        ("writeTimeout", "1m"), ("allowNativePasswords", "true")]) :
    (∀ k, k ∈ mapKeys m ↔
        k ∈ ["charset", "parseTime", "readTimeout", "writeTimeout", "allowNativePasswords"] ∨
        k ∈ mapKeys P) ∧
    (∀ k v, mapGet P k = some v → mapGet m k = some v) ∧
    (∀ k, k ∉ mapKeys P → mapGet m k = mapGet
        [("charset", charset), ("parseTime", "true"), ("readTimeout", "30m"),
        ("writeTimeout", "1m"), ("allowNativePasswords", "true")] k) ∧
    (mapKeys m).Nodup := by
  have hperm : (mapKeys order).Perm (mapKeys P) := horder.map Prod.fst
  have hnd : (mapKeys order).Nodup := hperm.nodup_iff.2 hkeys
  subst hm
  refine ⟨?_, ?_, ?_, ?_⟩
  · intro k
    rw [mem_mapKeys_foldl_mapSet, hperm.mem_iff]
    simp [mapKeys]
  · intro k v hget
    have hmemP : (k, v) ∈ P := mem_of_mapGet_eq_some hget
    have hmem : (k, v) ∈ order := horder.mem_iff.2 hmemP
    have hk : k ∈ mapKeys order := List.mem_map_of_mem Prod.fst hmem
    rw [mapGet_foldl_mapSet _ _ hnd, if_pos hk]
    exact mapGet_eq_some_of_mem hnd hmem
  · intro k hk
    have hk2 : k ∉ mapKeys order := fun h => hk (hperm.mem_iff.1 h)
    rw [mapGet_foldl_mapSet _ _ hnd, if_neg hk2]
  · apply nodup_mapKeys_foldl_mapSet
    simp [mapKeys]

/-- C6: `Connect` merges options so that custom options win.  For every charset and every
`customParams` map `P` (distinct keys, ranged over in any order), the `Params` of the config
that `Database.Connect` and `mysql.Connect` format has as keys the five default keys
together with the keys of `P`; a key of `P` maps to the value `P` gives it, also when it is
a default key; any other key maps to what the defaults give it (`charset` to the charset
argument, `parseTime` to `true`, `readTimeout` to `30m`, `writeTimeout` to `1m`,
`allowNativePasswords` to `true`).  That config, with the address, user, password and
database name arguments in its other fields, is the one whose `FormatDSN()` text
`Database.Connect` and `mysql.Connect` pass to `sql.Open("mysql", ...)`: the outcome of
either call is that of `sql.Open` on it. -/
theorem Connect_custom_params_win (host username password dbname charset : String)
    (P order : List (String × String)) (hkeys : (mapKeys P).Nodup) (horder : order.Perm P) :
    ((∀ k, k ∈ mapKeys (Database.Connect.config host username password dbname charset
          order).Params ↔
        k ∈ ["charset", "parseTime", "readTimeout", "writeTimeout", "allowNativePasswords"] ∨
        k ∈ mapKeys P) ∧
     (∀ k v, mapGet P k = some v →
        mapGet (Database.Connect.config host username password dbname charset order).Params k
          = some v) ∧
     (∀ k, k ∉ mapKeys P →
        mapGet (Database.Connect.config host username password dbname charset order).Params k
          = mapGet [("charset", charset), ("parseTime", "true"), ("readTimeout", "30m"),
        ("writeTimeout", "1m"), ("allowNativePasswords", "true")] k) ∧
     (mapKeys (Database.Connect.config host username password dbname charset
        order).Params).Nodup) ∧
    ((∀ k, k ∈ mapKeys (mysql.Connect.config host username password dbname charset
          order).Params ↔
        k ∈ ["charset", "parseTime", "readTimeout", "writeTimeout", "allowNativePasswords"] ∨
        k ∈ mapKeys P) ∧
     (∀ k v, mapGet P k = some v →
        mapGet (mysql.Connect.config host username password dbname charset order).Params k
          = some v) ∧
     (∀ k, k ∉ mapKeys P →
        mapGet (mysql.Connect.config host username password dbname charset order).Params k
          = mapGet [("charset", charset), ("parseTime", "true"), ("readTimeout", "30m"),
        ("writeTimeout", "1m"), ("allowNativePasswords", "true")] k) ∧
     (mapKeys (mysql.Connect.config host username password dbname charset
        order).Params).Nodup) ∧
    (∀ (V : Type) (sqlOpen : String → String → Except GoError (SqlDB V))
        (FormatDSN : Config → String),
      Database.Connect sqlOpen FormatDSN host username password dbname charset order =
        match sqlOpen "mysql" (FormatDSN
          { Addr := host, User := username, Passwd := password, DBName := dbname,
            Params := (Database.Connect.config host username password dbname charset
              order).Params }) with
        | Except.error err => Outcome.panicked err
        | Except.ok db => Outcome.returned ({ db := db }, none)) ∧
    (∀ (V : Type) (sqlOpen : String → String → Except GoError (SqlDB V))
        (FormatDSN : Config → String),
      mysql.Connect sqlOpen FormatDSN host username password dbname charset order =
        sqlOpen "mysql" (FormatDSN
          { Addr := host, User := username, Passwd := password, DBName := dbname,
            Params := (mysql.Connect.config host username password dbname charset
              order).Params })) :=
  ⟨merged_params charset P order hkeys horder _ (Database_Connect_params_eq charset order),
   merged_params charset P order hkeys horder _ (mysql_Connect_params_eq charset order),
   fun _ _ _ => rfl, fun _ _ _ => rfl⟩

/-- C6 at `sampleParams`, ranged over as `sampleParamsOrder`: the colliding `readTimeout`
takes the custom value, the new key `loc` is added, `writeTimeout` keeps its default; and
with a `FormatDSN` that renders the `readTimeout` parameter and a `sql.Open` that fails with
the text it is given, both `Connect`s are seen to hand over the merged value. -/
theorem Connect_custom_params_win_witness :
    (Database.Connect (fun _ dsn => Except.error dsn)
      (fun config => (mapGet config.Params "readTimeout").getD "absent")
      "h" "u" "p" "d" "utf8" sampleParamsOrder : Outcome (Database Int × Option GoError))
      = Outcome.panicked "5s" ∧
    (mysql.Connect (fun _ dsn => Except.error dsn)
      (fun config => (mapGet config.Params "writeTimeout").getD "absent")
      "h" "u" "p" "d" "utf8" sampleParamsOrder : Except GoError (SqlDB Int))
      = Except.error "1m" ∧
    mapGet (Database.Connect.config "h" "u" "p" "d" "utf8" sampleParamsOrder).Params
      "readTimeout" = some "5s" ∧
    mapGet (Database.Connect.config "h" "u" "p" "d" "utf8" sampleParamsOrder).Params
      "loc" = some "UTC" ∧
    mapGet (Database.Connect.config "h" "u" "p" "d" "utf8" sampleParamsOrder).Params
      "writeTimeout" = some "1m" ∧
    mapGet (mysql.Connect.config "h" "u" "p" "d" "utf8" sampleParamsOrder).Params
      "charset" = some "utf8" :=
  have h := Connect_custom_params_win "h" "u" "p" "d" "utf8" sampleParams sampleParamsOrder
    (by decide) (by decide)
  ⟨(h.2.2.1 Int (fun _ dsn => Except.error dsn)
      (fun config => (mapGet config.Params "readTimeout").getD "absent")).trans
      (by rw [h.1.2.1 "readTimeout" "5s" (by decide)]; rfl),
   (h.2.2.2 Int (fun _ dsn => Except.error dsn)
      (fun config => (mapGet config.Params "writeTimeout").getD "absent")).trans
      (by rw [h.2.1.2.2.1 "writeTimeout" (by decide)]; rfl),
   h.1.2.1 "readTimeout" "5s" (by decide), h.1.2.1 "loc" "UTC" (by decide),
   h.1.2.2.1 "writeTimeout" (by decide), h.2.1.2.2.1 "charset" (by decide)⟩

/-! ## Driver failures and results -/

/-- C7: on the `Database` and `DatabaseTx` facades a failure reported by the driver aborts the
call instead of being returned.  For `Connect` (`sql.Open`), `Query`, `Begin`, and the `Exec`
behind `internalInsert` (which `Insert`, `Ignore` and `Replace` are, at their three verbs),
`Update` and `Delete`: when the driver call answers a non-nil error the operation panics
with it, and whenever the operation returns, the error it returns is nil. -/
theorem driver_failure_panics {V : Type}
    (sqlOpen : String → String → Except GoError (SqlDB V)) (FormatDSN : Config → String)
    (host username password dbname charset : String) (customParams : List (String × String))
    (database : Database V) (databaseTx : DatabaseTx V) (data : List (String × V))
    (T verb W sql : String) (A args : List V) :
    ((∀ err,
        sqlOpen "mysql" (FormatDSN
          (Database.Connect.config host username password dbname charset customParams))
          = Except.error err →
        Database.Connect sqlOpen FormatDSN host username password dbname charset customParams
          = Outcome.panicked err) ∧
     (∀ r,
        Database.Connect sqlOpen FormatDSN host username password dbname charset customParams
          = Outcome.returned r → r.2 = none)) ∧
    ((∀ err, database.db.queryFn sql args = Except.error err →
        (database.Query sql args).2 = Outcome.panicked err) ∧
     (∀ r, (database.Query sql args).2 = Outcome.returned r → r.2 = none)) ∧
    ((∀ err, database.db.beginFn = Except.error err →
        (database.Begin).2 = Outcome.panicked err) ∧
     (∀ r, (database.Begin).2 = Outcome.returned r → r.2 = none)) ∧
    ((∀ err, database.db.execFn (verb ++ " INTO " ++ T ++ " SET " ++
          stringsJoin (Database.internalInsert.loop data).1 ", ")
        (Database.internalInsert.loop data).2 = Except.error err →
        (database.internalInsert data T verb).2 = Outcome.panicked err) ∧
     (∀ r, (database.internalInsert data T verb).2 = Outcome.returned r → r.2 = none)) ∧
    ((∀ err, database.db.execFn ("UPDATE " ++ T ++ " SET " ++
          stringsJoin (Database.Update.loop data).1 ", " ++ " WHERE " ++ W)
        ((Database.Update.loop data).2 ++ A) = Except.error err →
        (database.Update data T W A).2 = Outcome.panicked err) ∧
     (∀ r, (database.Update data T W A).2 = Outcome.returned r → r.2 = none)) ∧
    ((∀ err, database.db.execFn ("DELETE FROM " ++ T ++ " WHERE " ++ W) A = Except.error err →
        (database.Delete T W A).2 = Outcome.panicked err) ∧
     (∀ r, (database.Delete T W A).2 = Outcome.returned r → r.2 = none)) ∧
    (database.Insert data T = database.internalInsert data T "INSERT" ∧
     database.Ignore data T = database.internalInsert data T "INSERT IGNORE" ∧
     database.Replace data T = database.internalInsert data T "REPLACE") ∧
    ((∀ err, databaseTx.tx.queryFn sql args = Except.error err →
        (databaseTx.Query sql args).2 = Outcome.panicked err) ∧
     (∀ r, (databaseTx.Query sql args).2 = Outcome.returned r → r.2 = none)) ∧
    ((∀ err, databaseTx.tx.execFn (verb ++ " INTO " ++ T ++ " SET " ++
          stringsJoin (DatabaseTx.internalInsert.loop data).1 ", ")
        (DatabaseTx.internalInsert.loop data).2 = Except.error err →
        (databaseTx.internalInsert data T verb).2 = Outcome.panicked err) ∧
     (∀ r, (databaseTx.internalInsert data T verb).2 = Outcome.returned r → r.2 = none)) ∧
    ((∀ err, databaseTx.tx.execFn ("UPDATE " ++ T ++ " SET " ++
          stringsJoin (DatabaseTx.Update.loop data).1 ", " ++ " WHERE " ++ W)
        ((DatabaseTx.Update.loop data).2 ++ A) = Except.error err →
        (databaseTx.Update data T W A).2 = Outcome.panicked err) ∧
     (∀ r, (databaseTx.Update data T W A).2 = Outcome.returned r → r.2 = none)) ∧
    ((∀ err, databaseTx.tx.execFn ("DELETE FROM " ++ T ++ " WHERE " ++ W) A = Except.error err →
        (databaseTx.Delete T W A).2 = Outcome.panicked err) ∧
     (∀ r, (databaseTx.Delete T W A).2 = Outcome.returned r → r.2 = none)) ∧
    (databaseTx.Insert data T = databaseTx.internalInsert data T "INSERT" ∧
     databaseTx.Ignore data T = databaseTx.internalInsert data T "INSERT IGNORE" ∧
     databaseTx.Replace data T = databaseTx.internalInsert data T "REPLACE") := by
  refine ⟨?_, ?_, ?_, ?_, ?_, ?_, ?_, ?_, ?_, ?_, ?_, ?_⟩
  · constructor
    · intro err h
      simp only [Database.Connect, h]
    · intro r h
      simp only [Database.Connect] at h
      split at h
      · cases h
      · cases h; rfl
  · rw [Database_Query_outcome]
    constructor
    · intro err h
      rw [h]
    · intro r h
      split at h
      · cases h
      · cases h; rfl
  · rw [Database_Begin_outcome]
    constructor
    · intro err h
      rw [h]
    · intro r h
      split at h
      · cases h
      · cases h; rfl
  · rw [Database_internalInsert_outcome]
    constructor
    · intro err h
      rw [h]
    · intro r h
      split at h
      · cases h
      · cases h; rfl
  · rw [Database_Update_outcome]
    constructor
    · intro err h
      rw [h]
    · intro r h
      split at h
      · cases h
      · cases h; rfl
  · rw [Database_Delete_outcome]
    constructor
    · intro err h
      rw [h]
    · intro r h
      split at h
      · cases h
      · cases h; rfl
  · exact ⟨rfl, rfl, rfl⟩
  · rw [DatabaseTx_Query_outcome]
    constructor
    · intro err h
      rw [h]
    · intro r h
      split at h
      · cases h
      · cases h; rfl
  · rw [DatabaseTx_internalInsert_outcome]
    constructor
    · intro err h
      rw [h]
    · intro r h
      split at h
      · cases h
      · cases h; rfl
  · rw [DatabaseTx_Update_outcome]
    constructor
    · intro err h
      rw [h]
    · intro r h
      split at h
      · cases h
      · cases h; rfl
  · rw [DatabaseTx_Delete_outcome]
    constructor
    · intro err h
      rw [h]
    · intro r h
      split at h
      · cases h
      · cases h; rfl
  · exact ⟨rfl, rfl, rfl⟩

/-- C7 at a driver that fails every call, and at one that answers every call. -/
theorem driver_failure_panics_witness :
    (failingDatabase.Query "SELECT 1" []).2 = Outcome.panicked "query failed" ∧
    failingDatabase.Begin.2 = Outcome.panicked "begin failed" ∧
    (failingDatabase.internalInsert sampleOrder "users" "INSERT").2
      = Outcome.panicked "exec failed" ∧
    (failingTx.Delete "users" "id=?" [5]).2 = Outcome.panicked "exec failed" ∧
    (Database.Connect (fun _ _ => Except.error "open failed") (fun _ => "dsn")
      "h" "u" "p" "d" "utf8" sampleParamsOrder : Outcome (Database Int × Option GoError))
      = Outcome.panicked "open failed" ∧
    ((7 : Int), (none : Option GoError)).2 = none :=
  have h := driver_failure_panics (fun _ _ => Except.error "open failed") (fun _ => "dsn")
    "h" "u" "p" "d" "utf8" sampleParamsOrder failingDatabase failingTx sampleOrder
    "users" "INSERT" "id=?" "SELECT 1" [5] []
  have h2 := driver_failure_panics (fun _ _ => Except.error "open failed") (fun _ => "dsn")
    "h" "u" "p" "d" "utf8" sampleParamsOrder sampleDatabase sampleTx sampleOrder
    "users" "INSERT" "id=?" "SELECT 1" [5] []
  ⟨h.2.1.1 "query failed" rfl, h.2.2.1.1 "begin failed" rfl, h.2.2.2.1.1 "exec failed" rfl,
   h.2.2.2.2.2.2.2.2.2.2.1.1 "exec failed" rfl, h.1.1 "open failed" rfl,
   h2.2.2.2.1.2 (7, none) rfl⟩

/-- C8: when the driver's `Exec` succeeds with result `r`, `Insert`, `Ignore` and `Replace`
return the identifier reported by `r.LastInsertId()` with a nil error, and `Update` and
`Delete` return the count reported by `r.RowsAffected()` with a nil error; the error
component of the accessor is dropped, so the returned error is nil whatever it is.  On both
facades. -/
theorem exec_success_results {V : Type} (database : Database V) (databaseTx : DatabaseTx V)
    (data : List (String × V)) (T W : String) (A : List V) :
    (∀ r, database.db.execFn ("INSERT" ++ " INTO " ++ T ++ " SET " ++
          stringsJoin (Database.internalInsert.loop data).1 ", ")
        (Database.internalInsert.loop data).2 = Except.ok r →
      (database.Insert data T).2 = Outcome.returned (r.lastInsertId.1, none)) ∧
    (∀ r, database.db.execFn ("INSERT IGNORE" ++ " INTO " ++ T ++ " SET " ++
          stringsJoin (Database.internalInsert.loop data).1 ", ")
        (Database.internalInsert.loop data).2 = Except.ok r →
      (database.Ignore data T).2 = Outcome.returned (r.lastInsertId.1, none)) ∧
    (∀ r, database.db.execFn ("REPLACE" ++ " INTO " ++ T ++ " SET " ++
          stringsJoin (Database.internalInsert.loop data).1 ", ")
        (Database.internalInsert.loop data).2 = Except.ok r →
      (database.Replace data T).2 = Outcome.returned (r.lastInsertId.1, none)) ∧
    (∀ r, database.db.execFn ("UPDATE " ++ T ++ " SET " ++
          stringsJoin (Database.Update.loop data).1 ", " ++ " WHERE " ++ W)
        ((Database.Update.loop data).2 ++ A) = Except.ok r →
      (database.Update data T W A).2 = Outcome.returned (r.rowsAffected.1, none)) ∧
    (∀ r, database.db.execFn ("DELETE FROM " ++ T ++ " WHERE " ++ W) A = Except.ok r →
      (database.Delete T W A).2 = Outcome.returned (r.rowsAffected.1, none)) ∧
    (∀ r, databaseTx.tx.execFn ("INSERT" ++ " INTO " ++ T ++ " SET " ++
          stringsJoin (DatabaseTx.internalInsert.loop data).1 ", ")
        (DatabaseTx.internalInsert.loop data).2 = Except.ok r →
      (databaseTx.Insert data T).2 = Outcome.returned (r.lastInsertId.1, none)) ∧
    (∀ r, databaseTx.tx.execFn ("INSERT IGNORE" ++ " INTO " ++ T ++ " SET " ++
          stringsJoin (DatabaseTx.internalInsert.loop data).1 ", ")
        (DatabaseTx.internalInsert.loop data).2 = Except.ok r →
      (databaseTx.Ignore data T).2 = Outcome.returned (r.lastInsertId.1, none)) ∧
    (∀ r, databaseTx.tx.execFn ("REPLACE" ++ " INTO " ++ T ++ " SET " ++
          stringsJoin (DatabaseTx.internalInsert.loop data).1 ", ")
        (DatabaseTx.internalInsert.loop data).2 = Except.ok r →
      (databaseTx.Replace data T).2 = Outcome.returned (r.lastInsertId.1, none)) ∧
    (∀ r, databaseTx.tx.execFn ("UPDATE " ++ T ++ " SET " ++
          stringsJoin (DatabaseTx.Update.loop data).1 ", " ++ " WHERE " ++ W)
        ((DatabaseTx.Update.loop data).2 ++ A) = Except.ok r →
      (databaseTx.Update data T W A).2 = Outcome.returned (r.rowsAffected.1, none)) ∧
    (∀ r, databaseTx.tx.execFn ("DELETE FROM " ++ T ++ " WHERE " ++ W) A = Except.ok r →
      (databaseTx.Delete T W A).2 = Outcome.returned (r.rowsAffected.1, none)) := by
  refine ⟨?_, ?_, ?_, ?_, ?_, ?_, ?_, ?_, ?_, ?_⟩
  · intro r h
    have h2 := Database_internalInsert_outcome database data T "INSERT"
    rw [h] at h2
    exact h2
  · intro r h
    have h2 := Database_internalInsert_outcome database data T "INSERT IGNORE"
    rw [h] at h2
    exact h2
  · intro r h
    have h2 := Database_internalInsert_outcome database data T "REPLACE"
    rw [h] at h2
    exact h2
  · intro r h
    rw [Database_Update_outcome, h]
  · intro r h
    rw [Database_Delete_outcome, h]
  · intro r h
    have h2 := DatabaseTx_internalInsert_outcome databaseTx data T "INSERT"
    rw [h] at h2
    exact h2
  · intro r h
    have h2 := DatabaseTx_internalInsert_outcome databaseTx data T "INSERT IGNORE"
    rw [h] at h2
    exact h2
  · intro r h
    have h2 := DatabaseTx_internalInsert_outcome databaseTx data T "REPLACE"
    rw [h] at h2
    exact h2
  · intro r h
    rw [DatabaseTx_Update_outcome, h]
  · intro r h
    rw [DatabaseTx_Delete_outcome, h]

/-- C8 at a driver whose result fails both accessors: the numbers come back, the error is
nil. -/
theorem exec_success_results_witness :
    sampleResult.lastInsertId.2 = some "no identifier" ∧
    sampleResult.rowsAffected.2 = some "no count" ∧
    (sampleDatabase.Insert sampleOrder "users").2 = Outcome.returned (7, none) ∧
    (sampleDatabase.Update sampleOrder "users" "id=?" [5]).2 = Outcome.returned (3, none) ∧
    (sampleTx.Delete "users" "id=?" [5]).2 = Outcome.returned (3, none) :=
  have h := exec_success_results sampleDatabase sampleTx sampleOrder "users" "id=?" [5]
  ⟨rfl, rfl, h.1 sampleResult rfl, h.2.2.2.1 sampleResult rfl,
   h.2.2.2.2.2.2.2.2.2 sampleResult rfl⟩

/-! ## The four copies of the statement builder -/

/-- C9: the connection-bound and transaction-bound builders send the same statement.  For
the same entries in the same order, table, verb, where clause and arguments,
`Database.internalInsert`, `DatabaseTx.internalInsert`, `mysql.internalInsert` and
`mysql.txInternalInsert` each make one `Exec` call with the same text and the same bound
values; so do the four `Update`s, and the four `Delete`s. -/
theorem builders_agree {V : Type} (database : Database V) (databaseTx : DatabaseTx V)
    (db : SqlDB V) (tx : SqlTx V) (data : List (String × V)) (T verb W : String)
    (A : List V) :
    ((database.internalInsert data T verb).1.db.log = database.db.log ++
        [Call.exec (verb ++ " INTO " ++ T ++ " SET " ++
            stringsJoin (data.map (fun entry => "`" ++ entry.1 ++ "` = ?")) ", ")
          (data.map Prod.snd)] ∧
     (databaseTx.internalInsert data T verb).1.tx.log = databaseTx.tx.log ++
        [Call.exec (verb ++ " INTO " ++ T ++ " SET " ++
            stringsJoin (data.map (fun entry => "`" ++ entry.1 ++ "` = ?")) ", ")
          (data.map Prod.snd)] ∧
     (mysql.internalInsert db data T verb).1.log = db.log ++
        [Call.exec (verb ++ " INTO " ++ T ++ " SET " ++
            stringsJoin (data.map (fun entry => "`" ++ entry.1 ++ "` = ?")) ", ")
          (data.map Prod.snd)] ∧
     (mysql.txInternalInsert tx data T verb).1.log = tx.log ++
        [Call.exec (verb ++ " INTO " ++ T ++ " SET " ++
            stringsJoin (data.map (fun entry => "`" ++ entry.1 ++ "` = ?")) ", ")
          (data.map Prod.snd)]) ∧
    ((database.Update data T W A).1.db.log = database.db.log ++
        [Call.exec ("UPDATE " ++ T ++ " SET " ++
          stringsJoin (data.map (fun entry => "`" ++ entry.1 ++ "` = ?")) ", " ++
            " WHERE " ++ W)
          (data.map Prod.snd ++ A)] ∧
     (databaseTx.Update data T W A).1.tx.log = databaseTx.tx.log ++
        [Call.exec ("UPDATE " ++ T ++ " SET " ++
          stringsJoin (data.map (fun entry => "`" ++ entry.1 ++ "` = ?")) ", " ++
            " WHERE " ++ W)
          (data.map Prod.snd ++ A)] ∧
     (mysql.Update db data T W A).1.log = db.log ++
        [Call.exec ("UPDATE " ++ T ++ " SET " ++
          stringsJoin (data.map (fun entry => "`" ++ entry.1 ++ "` = ?")) ", " ++
            " WHERE " ++ W)
          (data.map Prod.snd ++ A)] ∧
     (mysql.TxUpdate tx data T W A).1.log = tx.log ++
        [Call.exec ("UPDATE " ++ T ++ " SET " ++
          stringsJoin (data.map (fun entry => "`" ++ entry.1 ++ "` = ?")) ", " ++
            " WHERE " ++ W)
          (data.map Prod.snd ++ A)]) ∧
    ((database.Delete T W A).1.db.log = database.db.log ++
        [Call.exec ("DELETE FROM " ++ T ++ " WHERE " ++ W) A] ∧
     (databaseTx.Delete T W A).1.tx.log = databaseTx.tx.log ++
        [Call.exec ("DELETE FROM " ++ T ++ " WHERE " ++ W) A] ∧
     (mysql.Delete db T W A).1.log = db.log ++
        [Call.exec ("DELETE FROM " ++ T ++ " WHERE " ++ W) A] ∧
     (mysql.TxDelete tx T W A).1.log = tx.log ++
        [Call.exec ("DELETE FROM " ++ T ++ " WHERE " ++ W) A]) := by
  refine ⟨⟨?_, ?_, ?_, ?_⟩, ⟨?_, ?_, ?_, ?_⟩, ⟨?_, ?_, ?_, ?_⟩⟩
  · rw [Database_internalInsert_log, Database_internalInsert_loop_eq]
  · rw [DatabaseTx_internalInsert_log, DatabaseTx_internalInsert_loop_eq]
  · rw [mysql_internalInsert_log, mysql_internalInsert_loop_eq]
  · rw [mysql_txInternalInsert_log, mysql_txInternalInsert_loop_eq]
  · rw [Database_Update_log, Database_Update_loop_eq]
  · rw [DatabaseTx_Update_log, DatabaseTx_Update_loop_eq]
  · rw [mysql_Update_log, mysql_Update_loop_eq]
  · rw [mysql_TxUpdate_log, mysql_TxUpdate_loop_eq]
  · exact Database_Delete_log database T W A
  · exact DatabaseTx_Delete_log databaseTx T W A
  · exact mysql_Delete_log db T W A
  · exact mysql_TxDelete_log tx T W A

/-! ## Placeholders -/

/-- Placeholders of the text of an insert-style statement. -/
theorem placeholders_insert_text {V : Type} (data : List (String × V)) (T verb : String)
    (hverb : placeholders verb = 0) (hT : '?' ∉ T.data)
    (hdata : ∀ k ∈ mapKeys data, '?' ∉ k.data) :
    placeholders (verb ++ " INTO " ++ T ++ " SET " ++
      stringsJoin (data.map (fun entry => "`" ++ entry.1 ++ "` = ?")) ", ") = data.length := by
  have h0 : placeholders T = 0 := List.count_eq_zero_of_not_mem hT
  have h1 : placeholders " INTO " = 0 := by decide
  have h2 : placeholders " SET " = 0 := by decide
  have hmap : data.map (fun entry => "`" ++ entry.1 ++ "` = ?")
      = (mapKeys data).map (fun k : String => "`" ++ k ++ "` = ?") := by
    simp [mapKeys, List.map_map, Function.comp_def]
  have h3 := placeholders_join_terms (mapKeys data) hdata
  rw [← hmap] at h3
  simp only [placeholders_append, h0, h1, h2, h3, hverb, mapKeys, List.length_map]
  omega

/-- Placeholders of the text of an update statement. -/
theorem placeholders_update_text {V : Type} (data : List (String × V)) (T W : String)
    (hT : '?' ∉ T.data) (hdata : ∀ k ∈ mapKeys data, '?' ∉ k.data) :
    placeholders ("UPDATE " ++ T ++ " SET " ++
      stringsJoin (data.map (fun entry => "`" ++ entry.1 ++ "` = ?")) ", " ++ " WHERE " ++ W)
      = data.length + placeholders W := by
  have h0 : placeholders T = 0 := List.count_eq_zero_of_not_mem hT
  have h1 : placeholders "UPDATE " = 0 := by decide
  have h2 : placeholders " SET " = 0 := by decide
  have h4 : placeholders " WHERE " = 0 := by decide
  have hmap : data.map (fun entry => "`" ++ entry.1 ++ "` = ?")
      = (mapKeys data).map (fun k : String => "`" ++ k ++ "` = ?") := by
    simp [mapKeys, List.map_map, Function.comp_def]
  have h3 := placeholders_join_terms (mapKeys data) hdata
  rw [← hmap] at h3
  simp only [placeholders_append, h0, h1, h2, h3, h4, mapKeys, List.length_map]
  omega

/-- C10: placeholders match bound values.  For a mapping `F` (ranged over in any order
`data`) whose keys contain no `?` and a table name `T` containing none, the text that
`Insert`, `Ignore` and `Replace` send has as many `?` characters as the call binds values,
namely `|F|`; if moreover the where clause `W` contains exactly `|A|` of them, the text that
`Update` sends has as many `?` characters as it binds values, namely `|F| + |A|`. -/
theorem placeholders_match_bound_values {V : Type} (database : Database V)
    (F data : List (String × V)) (T W : String) (A : List V)
    (horder : data.Perm F) (hF : ∀ k ∈ mapKeys F, '?' ∉ k.data) (hT : '?' ∉ T.data) :
    (∃ q vals, (database.Insert data T).1.db.log = database.db.log ++ [Call.exec q vals] ∧
        placeholders q = vals.length ∧ vals.length = F.length) ∧
    (∃ q vals, (database.Ignore data T).1.db.log = database.db.log ++ [Call.exec q vals] ∧
        placeholders q = vals.length ∧ vals.length = F.length) ∧
    (∃ q vals, (database.Replace data T).1.db.log = database.db.log ++ [Call.exec q vals] ∧
        placeholders q = vals.length ∧ vals.length = F.length) ∧
    (placeholders W = A.length →
      ∃ q vals, (database.Update data T W A).1.db.log = database.db.log ++ [Call.exec q vals] ∧
        placeholders q = vals.length ∧ vals.length = F.length + A.length) := by
  have hperm : (mapKeys data).Perm (mapKeys F) := horder.map Prod.fst
  have hdata : ∀ k ∈ mapKeys data, '?' ∉ k.data := fun k hk => hF k (hperm.mem_iff.1 hk)
  have hlen : data.length = F.length := horder.length_eq
  have hins : ∀ verb : String, placeholders verb = 0 →
      ∃ q vals, (database.internalInsert data T verb).1.db.log
          = database.db.log ++ [Call.exec q vals] ∧
        placeholders q = vals.length ∧ vals.length = F.length := by
    intro verb hverb
    refine ⟨_, _, Database_internalInsert_log database data T verb, ?_, ?_⟩
    · rw [Database_internalInsert_loop_eq]
      simp only [List.length_map]
      exact placeholders_insert_text data T verb hverb hT hdata
    · rw [Database_internalInsert_loop_eq]
      simp only [List.length_map]
      exact hlen
  refine ⟨hins "INSERT" (by decide), hins "INSERT IGNORE" (by decide),
    hins "REPLACE" (by decide), ?_⟩
  intro hW
  refine ⟨_, _, Database_Update_log database data T W A, ?_, ?_⟩
  · rw [Database_Update_loop_eq]
    simp only [List.length_append, List.length_map]
    rw [placeholders_update_text data T W hT hdata, hW]
  · rw [Database_Update_loop_eq]
    simp only [List.length_append, List.length_map]
    rw [hlen]

/-- C10 at `sampleFields`, ranged over as `sampleOrder`, with the where clause `id=?`. -/
theorem placeholders_match_bound_values_witness :
    placeholders "INSERT INTO users SET `age` = ?, `name` = ?" = 2 ∧
    placeholders "UPDATE users SET `age` = ?, `name` = ? WHERE id=?" = 3 ∧
    (∃ q vals, (sampleDatabase.Insert sampleOrder "users").1.db.log
        = sampleDatabase.db.log ++ [Call.exec q vals] ∧
      placeholders q = vals.length ∧ vals.length = sampleFields.length) ∧
    (∃ q vals, (sampleDatabase.Update sampleOrder "users" "id=?" [5]).1.db.log
        = sampleDatabase.db.log ++ [Call.exec q vals] ∧
      placeholders q = vals.length ∧ vals.length = sampleFields.length + [5].length) :=
  have h := placeholders_match_bound_values sampleDatabase sampleFields sampleOrder "users"
    "id=?" [5] (by decide) (by decide) (by decide)
  ⟨by decide, by decide, h.1, h.2.2.2 (by decide)⟩

end GoTool
